import Mathlib

/-!
Shallow embedding of the WS2812b clock driver sketch (`src/ClockDriver.ino`,
main variant).  The LED strip (`CRGBW leds[NUM_LEDS]`) is modelled as a total
function from pixel index to colour, together with a counter of
`FastLED.show()` calls (hardware flushes).  The rendering functions
`controlPixel`, `setClockSegment`, `setClockTime`, `colorFill` and `pixelTest`
are translated directly from the source; machine integers (`uint8_t`) are
modelled as `Nat` with `% 256` at the points where the source stores into a
`uint8_t`.
-/

namespace ClockDriver

/-- `#define NUM_LEDS 214` -/
def NUM_LEDS : Nat := 214

/-- FastLED `CRGB`: three 8-bit colour channels. -/
structure CRGB where
  r : Nat
  g : Nat
  b : Nat
deriving DecidableEq, Repr

/-- `CRGB::White` (255,255,255). -/
def CRGB.White : CRGB := ⟨255, 255, 255⟩

/-- `CRGB::Black` (0,0,0). -/
def CRGB.Black : CRGB := ⟨0, 0, 0⟩

/-- FastLED_RGBW `CRGBW`: RGB plus a dedicated white channel. -/
structure CRGBW where
  r : Nat
  g : Nat
  b : Nat
  w : Nat
deriving DecidableEq, Repr

/-- Assigning a `CRGB` to a `CRGBW` slot copies the RGB channels and clears
the white channel (FastLED_RGBW wrapper behaviour of `leds[i] = c`). -/
def CRGBW.ofRGB (c : CRGB) : CRGBW := ⟨c.r, c.g, c.b, 0⟩

/-- The colour written for a lit segment pixel: `CRGBW(0, 0, 0, 255)`. -/
def whitePixel : CRGBW := ⟨0, 0, 0, 255⟩

/-- The colour written for an unlit segment pixel (`CRGB::Black` stored into a
`CRGBW` slot). -/
def blackPixel : CRGBW := ⟨0, 0, 0, 0⟩

/-- The rows of `const int numberMap[10][50]` exactly as listed in the
initializer: for each digit 0-9, the strictly increasing list of local pixel
offsets that are lit. -/
def numberMapRows : List (List Nat) :=
  [[0, 1, 2, 3, 4, 5, 6, 7, 8, 9, 10, 11, 12, 13, 14, 15, 16, 17, 18, 19,
    25, 26, 27, 28, 29, 30, 31, 32, 33, 34],
   [0, 1, 2, 3, 4, 5, 6, 7, 8, 9],
   [5, 6, 7, 8, 9, 10, 11, 12, 13, 14, 20, 21, 22, 23, 24, 25, 26, 27, 28, 29,
    30, 31, 32, 33, 34],
   [0, 1, 2, 3, 4, 5, 6, 7, 8, 9, 10, 11, 12, 13, 14, 20, 21, 22, 23, 24,
    30, 31, 32, 33, 34],
   [0, 1, 2, 3, 4, 5, 6, 7, 8, 9, 15, 16, 17, 18, 19, 20, 21, 22, 23, 24],
   [0, 1, 2, 3, 4, 10, 11, 12, 13, 14, 15, 16, 17, 18, 19, 20, 21, 22, 23, 24,
    30, 31, 32, 33, 34],
   [0, 1, 2, 3, 4, 10, 11, 12, 13, 14, 15, 16, 17, 18, 19, 20, 21, 22, 23, 24,
    25, 26, 27, 28, 29, 30, 31, 32, 33, 34],
   [0, 1, 2, 3, 4, 5, 6, 7, 8, 9, 10, 11, 12, 13, 14],
   [0, 1, 2, 3, 4, 5, 6, 7, 8, 9, 10, 11, 12, 13, 14, 15, 16, 17, 18, 19,
    20, 21, 22, 23, 24, 25, 26, 27, 28, 29, 30, 31],
   [0, 1, 2, 3, 4, 5, 6, 7, 8, 9, 10, 11, 12, 13, 14, 15, 16, 17, 18, 19,
    20, 21, 22, 23, 24]]

/-- The listed (non-padding) entries of row `v` of `numberMap`. -/
def numberMapRow (v : Nat) : List Nat := numberMapRows.getD v []

/-- The C array cell `numberMap[v][i]`: each row is declared with 50 columns,
so aggregate initialization zero-fills every column past the listed entries. -/
def numberMap (v i : Nat) : Nat := (numberMapRow v).getD i 0

/-- `uint8_t digitMap[] = {0, 35, 70, 105, 140, 175, 210}` -/
def digitMapList : List Nat := [0, 35, 70, 105, 140, 175, 210]

/-- The C array access `digitMap[i]`. -/
def digitMap (i : Nat) : Nat := digitMapList.getD i 0

/-- The LED strip state: the `leds` buffer plus a count of `FastLED.show()`
calls (each one is a full push of the buffer to the hardware). -/
structure Strip where
  leds : Nat → CRGBW
  shows : Nat

/-- Globals at program start: the `leds` array is zero, no flush has happened
from rendering yet. -/
def initialStrip : Strip := { leds := fun _ => ⟨0, 0, 0, 0⟩, shows := 0 }

/-- `controlPixel(pixelNumber, color)`: writes the pixel into the buffer and
immediately calls `FastLED.show()`, in both branches. -/
def controlPixel (pixelNumber : Nat) (color : CRGB) (s : Strip) : Strip :=
  if color = CRGB.White then
    { leds := fun i => if i = pixelNumber then whitePixel else s.leds i,
      shows := s.shows + 1 }
  else
    { leds := fun i => if i = pixelNumber then CRGBW.ofRGB color else s.leds i,
      shows := s.shows + 1 }

/-- The pixel loop of `setClockSegment`, with the remaining iteration count as
fuel: state is (`arrayTracker`, `arrayOffset`, current pixel `a`). -/
def segLoop (time : Nat) : Nat → Nat → Nat → Nat → Strip → Strip
  | _, _, _, 0, s => s
  | tracker, off, a, Nat.succ n, s =>
    if numberMap time tracker = off then
      segLoop time (tracker + 1) (off + 1) (a + 1) n (controlPixel a CRGB.White s)
    else
      segLoop time tracker (off + 1) (a + 1) n (controlPixel a CRGB.Black s)

/-- `setClockSegment(segment, time)`: scans the pixel range
`[digitMap[segment], digitMap[segment+1])` with the single-pass cursor. -/
def setClockSegment (segment time : Nat) (s : Strip) : Strip :=
  segLoop time 0 0 (digitMap segment) (digitMap (segment + 1) - digitMap segment) s

/-- The colour the cursor scan assigns to the pixel reached `k` steps after a
scan state (`tracker`, `off`); mirrors the two branches of the loop body. -/
def colorAt (v : Nat) : Nat → Nat → Nat → CRGBW
  | tracker, off, 0 =>
    if numberMap v tracker = off then whitePixel else blackPixel
  | tracker, off, Nat.succ k =>
    if numberMap v tracker = off then colorAt v (tracker + 1) (off + 1) k
    else colorAt v tracker (off + 1) k

theorem controlPixel_leds (p : Nat) (c : CRGB) (s : Strip) (i : Nat) :
    (controlPixel p c s).leds i =
      if i = p then (if c = CRGB.White then whitePixel else CRGBW.ofRGB c)
      else s.leds i := by
  unfold controlPixel
  by_cases hc : c = CRGB.White <;> simp [hc]

theorem controlPixel_shows (p : Nat) (c : CRGB) (s : Strip) :
    (controlPixel p c s).shows = s.shows + 1 := by
  unfold controlPixel
  by_cases hc : c = CRGB.White <;> simp [hc]

theorem segLoop_shows (v : Nat) :
    ∀ (n tracker off a : Nat) (s : Strip),
      (segLoop v tracker off a n s).shows = s.shows + n := by
  intro n
  induction n with
  | zero => intro tracker off a s; rfl
  | succ n ih =>
    intro tracker off a s
    unfold segLoop
    by_cases hc : numberMap v tracker = off <;>
      simp [hc, ih, controlPixel_shows] <;> omega

theorem segLoop_leds_out (v : Nat) :
    ∀ (n tracker off a : Nat) (s : Strip) (i : Nat),
      (i < a ∨ a + n ≤ i) →
      (segLoop v tracker off a n s).leds i = s.leds i := by
  intro n
  induction n with
  | zero => intro tracker off a s i _; rfl
  | succ n ih =>
    intro tracker off a s i hi
    unfold segLoop
    by_cases hc : numberMap v tracker = off <;>
      simp only [hc, if_true, if_false, ite_true, ite_false] <;>
      rw [ih _ _ _ _ _ (by omega), controlPixel_leds] <;>
      simp [show i ≠ a by omega]

theorem segLoop_leds_in (v : Nat) :
    ∀ (n tracker off a : Nat) (s : Strip) (i : Nat),
      a ≤ i → i < a + n →
      (segLoop v tracker off a n s).leds i = colorAt v tracker off (i - a) := by
  intro n
  induction n with
  | zero => intro tracker off a s i h1 h2; omega
  | succ n ih =>
    intro tracker off a s i h1 h2
    rcases Nat.eq_or_lt_of_le h1 with heq | hlt
    · subst heq
      unfold segLoop colorAt
      by_cases hc : numberMap v tracker = off <;>
        simp only [hc, if_true, if_false, ite_true, ite_false] <;>
        rw [segLoop_leds_out v n _ _ _ _ _ (Or.inl (by omega)),
            controlPixel_leds] <;>
        simp [Nat.sub_self, hc, CRGBW.ofRGB, CRGB.Black, CRGB.White,
          whitePixel, blackPixel]
    · obtain ⟨k, hk⟩ : ∃ k, i - a = k + 1 := ⟨i - a - 1, by omega⟩
      unfold segLoop
      rw [hk]
      unfold colorAt
      by_cases hc : numberMap v tracker = off <;>
        simp only [hc, if_true, if_false, ite_true, ite_false] <;>
        rw [ih _ _ _ _ _ (by omega) (by omega)] <;>
        congr 1 <;> omega

/-- For every digit 0-9 and every offset within the 35-pixel span, the cursor
scan result agrees with membership in the listed glyph row. -/
theorem colorAt_eq_membership :
    ∀ v, v < 10 → ∀ k, k < 35 →
      colorAt v 0 0 k = (if k ∈ numberMapRow v then whitePixel else blackPixel) := by
  decide

theorem digitMap_le : ∀ seg, seg < 6 → digitMap seg ≤ digitMap (seg + 1) := by
  decide

theorem digitMap_span : ∀ seg, seg < 6 → digitMap (seg + 1) - digitMap seg = 35 := by
  decide

/-- Checked C array access `numberMap[v][i]`: the table has 10 rows of 50
columns; any other access reads outside the table (undefined behaviour in the
source, modelled as `none`). -/
def numberMapCell (v i : Nat) : Option Nat :=
  if v < 10 ∧ i < 50 then some (numberMap v i) else none

/-- The pixel loop of `setClockSegment` with every glyph-table access bounds
checked: an out-of-bounds read stops the run with `none` before the pixel
write of that iteration. -/
def segLoopChecked (time : Nat) : Nat → Nat → Nat → Nat → Strip → Option Strip
  | _, _, _, 0, s => some s
  | tracker, off, a, Nat.succ n, s =>
    (numberMapCell time tracker).bind fun e =>
      if e = off then
        segLoopChecked time (tracker + 1) (off + 1) (a + 1) n (controlPixel a CRGB.White s)
      else
        segLoopChecked time tracker (off + 1) (a + 1) n (controlPixel a CRGB.Black s)

/-- `setClockSegment` with checked glyph-table accesses. -/
def setClockSegmentChecked (segment time : Nat) (s : Strip) : Option Strip :=
  segLoopChecked time 0 0 (digitMap segment) (digitMap (segment + 1) - digitMap segment) s

theorem segLoopChecked_eq (v : Nat) (hv : v < 10) :
    ∀ (n tracker off a : Nat) (s : Strip), tracker + n ≤ 50 →
      segLoopChecked v tracker off a n s = some (segLoop v tracker off a n s) := by
  intro n
  induction n with
  | zero => intro tracker off a s h; rfl
  | succ n ih =>
    intro tracker off a s h
    unfold segLoopChecked segLoop numberMapCell
    rw [if_pos ⟨hv, by omega⟩]
    by_cases hc : numberMap v tracker = off <;>
      simp only [hc, Option.some_bind, if_true, if_false, ite_true, ite_false] <;>
      exact ih _ _ _ _ (by omega)

/-- Rendering state of the sketch: the `uint8_t` trackers `oldHour` and
`oldMinute`, the strip, and a log of the `setClockSegment(segment, time)`
calls made, in order. -/
structure ClockState where
  oldHour : Nat
  oldMinute : Nat
  strip : Strip
  log : List (Nat × Nat)

/-- Globals at program start: `oldHour` and `oldMinute` are zero-initialized. -/
def initialClock : ClockState :=
  { oldHour := 0, oldMinute := 0, strip := initialStrip, log := [] }

/-- One `setClockSegment(segment, time)` call made by `setClockTime`, recorded
in the render log. -/
def renderSegment (segment time : Nat) (c : ClockState) : ClockState :=
  { c with strip := setClockSegment segment time c.strip,
           log := c.log ++ [(segment, time)] }

/-- `setClockTime(hour, minute, second)`: the three-way differential-redraw
branch on the trackers; stores into the `uint8_t` trackers reduce `% 256`.
The `delay(10)` calls affect only timing and are dropped. -/
def setClockTime (hour minute second : Nat) (c : ClockState) : ClockState :=
  if c.oldMinute = minute then
    renderSegment 1 (second / 10 % 10) (renderSegment 0 (second % 10) c)
  else if c.oldHour = hour then
    let c2 := renderSegment 3 (minute / 10 % 10) (renderSegment 2 (minute % 10)
      (renderSegment 1 (second / 10 % 10) (renderSegment 0 (second % 10) c)))
    { c2 with oldMinute := minute % 256 }
  else
    let c3 := renderSegment 5 (hour / 10 % 10) (renderSegment 4 (hour % 10)
      (renderSegment 3 (minute / 10 % 10) (renderSegment 2 (minute % 10)
      (renderSegment 1 (second / 10 % 10) (renderSegment 0 (second % 10) c)))))
    { c3 with oldMinute := minute % 256, oldHour := hour % 256 }

/-- The per-pixel loop of `colorFill`: same body as `controlPixel` (write one
pixel, then `FastLED.show()`), over indices `i, i+1, ...` with `n` left. -/
def colorFillLoop (c : CRGB) : Nat → Nat → Strip → Strip
  | _, 0, s => s
  | i, Nat.succ n, s =>
    if c = CRGB.White then
      colorFillLoop c (i + 1) n
        { leds := fun j => if j = i then whitePixel else s.leds j,
          shows := s.shows + 1 }
    else
      colorFillLoop c (i + 1) n
        { leds := fun j => if j = i then CRGBW.ofRGB c else s.leds j,
          shows := s.shows + 1 }

/-- `colorFill(c, speed)`: writes every pixel `0 ≤ i < NUM_LEDS`; the `delay`
affects only timing and is dropped. -/
def colorFill (c : CRGB) (s : Strip) : Strip := colorFillLoop c 0 NUM_LEDS s

/-- `pixelTest()`: the active statements are the ten `setClockTime` calls with
repeated digits, then `colorFill(CRGB::Black, 1)` (the colour sweeps at the
top are commented out in the source). -/
def pixelTest (c : ClockState) : ClockState :=
  let c0 := setClockTime 0 0 0 c
  let c1 := setClockTime 11 11 11 c0
  let c2 := setClockTime 22 22 22 c1
  let c3 := setClockTime 33 33 33 c2
  let c4 := setClockTime 44 44 44 c3
  let c5 := setClockTime 55 55 55 c4
  let c6 := setClockTime 66 66 66 c5
  let c7 := setClockTime 77 77 77 c6
  let c8 := setClockTime 88 88 88 c7
  let c9 := setClockTime 99 99 99 c8
  { c9 with strip := colorFill CRGB.Black c9.strip }

/-- Globals for the MQTT remote control: `brightness` and `oldBrightness`
(both `uint8_t`), the on/off flag `masterState`, and the value last applied
through `FastLED.setBrightness`. -/
structure MqttState where
  brightness : Nat
  oldBrightness : Nat
  masterState : Bool
  fastledBrightness : Nat

/-- Globals at program start (after `setup()` applied `brightness`). -/
def initialMqtt : MqttState :=
  { brightness := 128, oldBrightness := 100, masterState := true,
    fastledBrightness := 128 }

/-- A remote-control message, already parsed: a payload on topic
`LEDClock/Brightness` carries the numeric payload value, a payload on topic
`LEDClock/State` carries whether the payload string equals the word true. -/
inductive MqttMsg where
  | brightnessMsg (value : Nat)
  | stateMsg (isTrue : Bool)

/-- `callback(topic, payload, length)`: the Brightness handler stores the
value into the `uint8_t` `brightness` (hence `% 256`), mirrors it into
`oldBrightness` and applies it; the State handler restores `oldBrightness`
when turning on and saves `brightness` into `oldBrightness` before forcing 0
when turning off.  The two topic comparisons are mutually exclusive. -/
def callback : MqttMsg → MqttState → MqttState
  | MqttMsg.brightnessMsg v, st =>
    { st with brightness := v % 256, oldBrightness := v % 256,
              fastledBrightness := v % 256 }
  | MqttMsg.stateMsg true, st =>
    { st with brightness := st.oldBrightness,
              fastledBrightness := st.oldBrightness, masterState := true }
  | MqttMsg.stateMsg false, st =>
    { st with oldBrightness := st.brightness, brightness := 0,
              fastledBrightness := 0, masterState := false }

/-- A tracker state with `oldHour = 3`, `oldMinute = 5` and a blank strip:
the state after rendering 03:05 when the time source then jumps to 04:05
(same minute, different hour). -/
def cexState : ClockState :=
  { oldHour := 3, oldMinute := 5, strip := initialStrip, log := [] }

theorem renderSegment_oldHour (seg v : Nat) (c : ClockState) :
    (renderSegment seg v c).oldHour = c.oldHour := rfl

theorem renderSegment_oldMinute (seg v : Nat) (c : ClockState) :
    (renderSegment seg v c).oldMinute = c.oldMinute := rfl

theorem renderSegment_log (seg v : Nat) (c : ClockState) :
    (renderSegment seg v c).log = c.log ++ [(seg, v)] := rfl

theorem setClockSegment_shows (seg v : Nat) (s : Strip) :
    (setClockSegment seg v s).shows = s.shows + (digitMap (seg + 1) - digitMap seg) :=
  segLoop_shows v _ _ _ _ s

theorem setClockTime_oldMinute (h m s : Nat) (c : ClockState) :
    (setClockTime h m s c).oldMinute =
      if c.oldMinute = m then c.oldMinute else m % 256 := by
  unfold setClockTime
  by_cases h1 : c.oldMinute = m
  · simp [h1, renderSegment]
  · by_cases h2 : c.oldHour = h <;> simp [h1, h2, renderSegment]

theorem setClockTime_oldHour (h m s : Nat) (c : ClockState) :
    (setClockTime h m s c).oldHour =
      if c.oldMinute = m then c.oldHour
      else if c.oldHour = h then c.oldHour else h % 256 := by
  unfold setClockTime
  by_cases h1 : c.oldMinute = m
  · simp [h1, renderSegment]
  · by_cases h2 : c.oldHour = h <;> simp [h1, h2, renderSegment]

theorem setClockTime_log (h m s : Nat) (c : ClockState) :
    (setClockTime h m s c).log =
      if c.oldMinute = m then
        c.log ++ [(0, s % 10), (1, s / 10 % 10)]
      else if c.oldHour = h then
        c.log ++ [(0, s % 10), (1, s / 10 % 10), (2, m % 10), (3, m / 10 % 10)]
      else
        c.log ++ [(0, s % 10), (1, s / 10 % 10), (2, m % 10), (3, m / 10 % 10),
                  (4, h % 10), (5, h / 10 % 10)] := by
  unfold setClockTime
  by_cases h1 : c.oldMinute = m
  · simp [h1, renderSegment]
  · by_cases h2 : c.oldHour = h <;> simp [h1, h2, renderSegment]

theorem setClockTime_log_full (h m s : Nat) (c : ClockState)
    (hm : c.oldMinute ≠ m) (hh : c.oldHour ≠ h) :
    (setClockTime h m s c).log =
      c.log ++ [(0, s % 10), (1, s / 10 % 10), (2, m % 10), (3, m / 10 % 10),
                (4, h % 10), (5, h / 10 % 10)] := by
  rw [setClockTime_log]
  simp [hm, hh]

theorem colorFillLoop_leds_out (c : CRGB) :
    ∀ (n i j : Nat) (s : Strip), (j < i ∨ i + n ≤ j) →
      (colorFillLoop c i n s).leds j = s.leds j := by
  by_cases hc : c = CRGB.White
  · subst hc
    intro n
    induction n with
    | zero => intro i j s _; rfl
    | succ n ih =>
      intro i j s hj
      unfold colorFillLoop
      rw [if_pos rfl, ih _ _ _ (by omega)]
      simp [show j ≠ i by omega]
  · intro n
    induction n with
    | zero => intro i j s _; rfl
    | succ n ih =>
      intro i j s hj
      unfold colorFillLoop
      rw [if_neg hc, ih _ _ _ (by omega)]
      simp [show j ≠ i by omega]

theorem colorFillLoop_leds_in (c : CRGB) :
    ∀ (n i j : Nat) (s : Strip), i ≤ j → j < i + n →
      (colorFillLoop c i n s).leds j =
        (if c = CRGB.White then whitePixel else CRGBW.ofRGB c) := by
  by_cases hc : c = CRGB.White
  · subst hc
    intro n
    induction n with
    | zero => intro i j s h1 h2; omega
    | succ n ih =>
      intro i j s h1 h2
      unfold colorFillLoop
      simp only [if_pos (rfl : CRGB.White = CRGB.White), if_true, ite_true]
      rcases Nat.eq_or_lt_of_le h1 with heq | hlt
      · subst heq
        rw [colorFillLoop_leds_out _ n _ _ _ (Or.inl (by omega))]
        simp
      · rw [ih _ _ _ (by omega) (by omega)]
        simp
  · intro n
    induction n with
    | zero => intro i j s h1 h2; omega
    | succ n ih =>
      intro i j s h1 h2
      unfold colorFillLoop
      simp only [if_neg hc]
      rcases Nat.eq_or_lt_of_le h1 with heq | hlt
      · subst heq
        rw [colorFillLoop_leds_out _ n _ _ _ (Or.inl (by omega))]
        simp
      · rw [ih _ _ _ (by omega) (by omega)]
        simp [hc]

theorem colorFill_leds (c : CRGB) (s : Strip) (i : Nat) (hi : i < NUM_LEDS) :
    (colorFill c s).leds i =
      (if c = CRGB.White then whitePixel else CRGBW.ofRGB c) :=
  colorFillLoop_leds_in c NUM_LEDS 0 i s (Nat.zero_le i) (by omega)

theorem pixelTest_trackers :
    (pixelTest initialClock).oldHour = 99 ∧ (pixelTest initialClock).oldMinute = 99 := by
  constructor <;>
    simp [pixelTest, setClockTime_oldHour, setClockTime_oldMinute, initialClock]

/-- C1: for every digit position 0-5 and digit value 0-9, `setClockSegment`
sets the pixel at absolute index `digitMap[position] + off` to white
`CRGBW(0,0,0,255)` iff `off` appears among the listed offsets of
`numberMap[value]`, and every other pixel of the range
`[digitMap[position], digitMap[position+1])` to black: the single-pass cursor
scan computes exactly this membership. -/
theorem C1_setClockSegment_white_iff_member
    (seg v : Nat) (hseg : seg < 6) (hv : v < 10) (s : Strip) (i : Nat)
    (h1 : digitMap seg ≤ i) (h2 : i < digitMap (seg + 1)) :
    (setClockSegment seg v s).leds i =
      (if (i - digitMap seg) ∈ numberMapRow v then whitePixel else blackPixel) := by
  unfold setClockSegment
  rw [segLoop_leds_in v _ _ _ _ _ _ h1 (by have := digitMap_le seg hseg; omega)]
  exact colorAt_eq_membership v hv _ (by have := digitMap_span seg hseg; omega)

theorem C1_witness :
    (setClockSegment 0 2 initialStrip).leds 5 = whitePixel ∧
    (setClockSegment 0 2 initialStrip).leds 0 = blackPixel := by
  have hw := C1_setClockSegment_white_iff_member 0 2 (by decide) (by decide)
    initialStrip 5 (by decide) (by decide)
  have hb := C1_setClockSegment_white_iff_member 0 2 (by decide) (by decide)
    initialStrip 0 (by decide) (by decide)
  rw [hw, hb]
  exact ⟨by decide, by decide⟩

/-- C2 counterexample: from trackers `oldHour = 3`, `oldMinute = 5`, the call
`setClockTime(4, 5, 0)` renders only the two seconds positions even though
the hour (4) differs from `oldHour` (3): the hour comparison is never reached
when the minute is unchanged, so the hour pair is not redrawn independently. -/
theorem C2_counterexample :
    cexState.oldHour ≠ 4 ∧
    (setClockTime 4 5 0 cexState).log = [(0, 0), (1, 0)] := by
  exact ⟨by decide, rfl⟩

/-- The digit positions rendered by one `setClockTime` call, in order. -/
def drawnPositions (hour minute second : Nat) (c : ClockState) : List Nat :=
  ((setClockTime hour minute second c).log).map Prod.fst

/-- C2 amended: the two seconds positions are always redrawn; the two minute
positions are redrawn iff the minute differs from `oldMinute`; the two hour
positions are redrawn iff the minute differs from `oldMinute` AND the hour
differs from `oldHour` — the hour comparison is only reached once the minute
has changed, so it is not independent of the minute comparison. -/
theorem C2_amended_change_mask (h m s : Nat) (c : ClockState) (hlog : c.log = []) :
    (0 ∈ drawnPositions h m s c ∧ 1 ∈ drawnPositions h m s c) ∧
    (2 ∈ drawnPositions h m s c ↔ c.oldMinute ≠ m) ∧
    (3 ∈ drawnPositions h m s c ↔ c.oldMinute ≠ m) ∧
    (4 ∈ drawnPositions h m s c ↔ (c.oldMinute ≠ m ∧ c.oldHour ≠ h)) ∧
    (5 ∈ drawnPositions h m s c ↔ (c.oldMinute ≠ m ∧ c.oldHour ≠ h)) := by
  unfold drawnPositions
  rw [setClockTime_log]
  by_cases h1 : c.oldMinute = m
  · simp [h1, hlog]
  · by_cases h2 : c.oldHour = h <;> simp [h1, h2, hlog]

theorem C2_witness :
    (0 ∈ drawnPositions 4 5 0 cexState ∧ 1 ∈ drawnPositions 4 5 0 cexState) ∧
    (2 ∈ drawnPositions 4 5 0 cexState ↔ cexState.oldMinute ≠ 5) ∧
    (3 ∈ drawnPositions 4 5 0 cexState ↔ cexState.oldMinute ≠ 5) ∧
    (4 ∈ drawnPositions 4 5 0 cexState ↔ (cexState.oldMinute ≠ 5 ∧ cexState.oldHour ≠ 4)) ∧
    (5 ∈ drawnPositions 4 5 0 cexState ↔ (cexState.oldMinute ≠ 5 ∧ cexState.oldHour ≠ 4)) :=
  C2_amended_change_mask 4 5 0 cexState rfl

/-- C3 (code defect at the failing input): one tick with an unchanged minute
performs 70 hardware flushes — `controlPixel` calls `FastLED.show()` after
every single pixel write, 35 times per digit — instead of writing the buffer
and flushing once after all scheduled digits. -/
theorem C3_flush_count :
    (setClockSegment 0 7 initialStrip).shows = 35 ∧
    (setClockTime 3 5 7 cexState).strip.shows = 70 := by
  constructor
  · rw [setClockSegment_shows]
    decide
  · have h1 : cexState.oldMinute = 5 := rfl
    simp [setClockTime, h1, renderSegment, setClockSegment_shows, cexState,
      initialStrip]
    decide

/-- C4 counterexample: from trackers `oldHour = 3`, `oldMinute = 5`, after
`setClockTime(4, 5, 0)` the tracker `oldHour` still holds 3, not the
just-rendered hour 4: the unchanged-minute branch never updates `oldHour`. -/
theorem C4_counterexample :
    cexState.oldHour = 3 ∧
    (setClockTime 4 5 0 cexState).oldHour = 3 ∧ (3 : Nat) ≠ 4 :=
  ⟨rfl, rfl, by decide⟩

/-- C4 amended: after `setClockTime(hour, minute, second)` the tracker
`oldMinute` always equals `minute`; `oldHour` equals `hour` whenever the
minute changed, but when `oldMinute` already equals `minute` the call leaves
`oldHour` at its prior value (even if the hour differs). -/
theorem C4_amended_trackers (h m s : Nat) (c : ClockState)
    (hh : h < 256) (hm : m < 256) :
    (setClockTime h m s c).oldMinute = m ∧
    (c.oldMinute ≠ m → (setClockTime h m s c).oldHour = h) ∧
    (c.oldMinute = m → (setClockTime h m s c).oldHour = c.oldHour) := by
  rw [setClockTime_oldMinute, setClockTime_oldHour]
  by_cases h1 : c.oldMinute = m
  · simp [h1]
  · by_cases h2 : c.oldHour = h <;> simp [h1, h2] <;> omega

theorem C4_witness :
    (setClockTime 12 34 0 cexState).oldMinute = 34 ∧
    (cexState.oldMinute ≠ 34 → (setClockTime 12 34 0 cexState).oldHour = 12) ∧
    (cexState.oldMinute = 34 → (setClockTime 12 34 0 cexState).oldHour = cexState.oldHour) :=
  C4_amended_trackers 12 34 0 cexState (by decide) (by decide)

/-- C5: whenever `setClockTime` performs its full render (both trackers
differ from the new time), the six rendered digit values are the independent
base-10 splits `value % 10` and `value / 10 % 10` of second (positions 0,1),
minute (positions 2,3) and hour (positions 4,5). -/
theorem C5_decompose_digits (h m s : Nat) (c : ClockState) (hlog : c.log = [])
    (hm : c.oldMinute ≠ m) (hh : c.oldHour ≠ h) :
    (setClockTime h m s c).log =
      [(0, s % 10), (1, s / 10 % 10), (2, m % 10), (3, m / 10 % 10),
       (4, h % 10), (5, h / 10 % 10)] := by
  rw [setClockTime_log_full h m s c hm hh, hlog]
  rfl

theorem C5_witness :
    (setClockTime 23 59 9 cexState).log =
      [(0, 9), (1, 0), (2, 9), (3, 5), (4, 3), (5, 2)] := by
  have h := C5_decompose_digits 23 59 9 cexState rfl (by decide) (by decide)
  rw [h]

/-- C6: setting brightness `b`, turning the clock off, then turning it back
on restores exactly `b` (both in the `brightness` variable and in the value
applied to the hardware); while off the applied brightness is forced to 0. -/
theorem C6_brightness_restore (b : Nat) (hb : b < 256) (st : MqttState) :
    (callback (MqttMsg.stateMsg false) (callback (MqttMsg.brightnessMsg b) st)).brightness = 0 ∧
    (callback (MqttMsg.stateMsg false) (callback (MqttMsg.brightnessMsg b) st)).fastledBrightness = 0 ∧
    (callback (MqttMsg.stateMsg true) (callback (MqttMsg.stateMsg false)
      (callback (MqttMsg.brightnessMsg b) st))).brightness = b ∧
    (callback (MqttMsg.stateMsg true) (callback (MqttMsg.stateMsg false)
      (callback (MqttMsg.brightnessMsg b) st))).fastledBrightness = b := by
  refine ⟨rfl, rfl, ?_, ?_⟩ <;> simp [callback] <;> omega

theorem C6_witness :
    (callback (MqttMsg.stateMsg false) (callback (MqttMsg.brightnessMsg 200) initialMqtt)).brightness = 0 ∧
    (callback (MqttMsg.stateMsg false) (callback (MqttMsg.brightnessMsg 200) initialMqtt)).fastledBrightness = 0 ∧
    (callback (MqttMsg.stateMsg true) (callback (MqttMsg.stateMsg false)
      (callback (MqttMsg.brightnessMsg 200) initialMqtt))).brightness = 200 ∧
    (callback (MqttMsg.stateMsg true) (callback (MqttMsg.stateMsg false)
      (callback (MqttMsg.brightnessMsg 200) initialMqtt))).fastledBrightness = 200 :=
  C6_brightness_restore 200 (by decide) initialMqtt

/-- C7 counterexample: `setClockSegment` contains no assertion; at digit
value 10 its very first glyph-table access is `numberMap[10][0]`, outside the
10-row table — the run reads out of bounds (undefined behaviour in the
source, `none` in the checked model) instead of failing an assertion. -/
theorem C7_counterexample :
    numberMapCell 10 0 = none ∧
    setClockSegmentChecked 0 10 initialStrip = none :=
  ⟨rfl, rfl⟩

/-- C7 amended: `setClockSegment` has no assertion and performs an
out-of-bounds glyph-table read for values outside 0..9; what holds is the
precondition form: for position 0-5 and value 0-9 every glyph-table access is
in bounds, so the bounds-checked run never faults and coincides with the
unchecked one. -/
theorem C7_in_bounds (seg v : Nat) (hseg : seg < 6) (hv : v < 10) (s : Strip) :
    setClockSegmentChecked seg v s = some (setClockSegment seg v s) := by
  unfold setClockSegmentChecked setClockSegment
  exact segLoopChecked_eq v hv _ _ _ _ s (by have := digitMap_span seg hseg; omega)

theorem C7_witness :
    setClockSegmentChecked 2 8 initialStrip = some (setClockSegment 2 8 initialStrip) :=
  C7_in_bounds 2 8 (by decide) (by decide) initialStrip

/-- C8: `setClockSegment` is idempotent on the pixel buffer: rendering the
same value at the same position twice leaves the buffer exactly as after one
call. -/
theorem C8_idempotent (seg v : Nat) (hseg : seg < 6) (hv : v < 10) (s : Strip) :
    (setClockSegment seg v (setClockSegment seg v s)).leds =
      (setClockSegment seg v s).leds := by
  funext i
  by_cases hin : digitMap seg ≤ i ∧ i < digitMap (seg + 1)
  · unfold setClockSegment
    rw [segLoop_leds_in v _ _ _ _ _ _ hin.1 (by have := digitMap_le seg hseg; omega),
        segLoop_leds_in v _ _ _ _ _ _ hin.1 (by have := digitMap_le seg hseg; omega)]
  · unfold setClockSegment
    exact segLoop_leds_out v _ _ _ _ _ _
      (by have := digitMap_le seg hseg; omega)

theorem C8_witness :
    (setClockSegment 1 3 (setClockSegment 1 3 initialStrip)).leds =
      (setClockSegment 1 3 initialStrip).leds :=
  C8_idempotent 1 3 (by decide) (by decide) initialStrip

/-- C9: `setClockSegment(position, value)` modifies only pixels with absolute
index in `[digitMap[position], digitMap[position+1])`; every pixel outside
that range keeps its previous colour. -/
theorem C9_frame (seg v : Nat) (hseg : seg < 6) (hv : v < 10) (s : Strip)
    (i : Nat) (h : i < digitMap seg ∨ digitMap (seg + 1) ≤ i) :
    (setClockSegment seg v s).leds i = s.leds i := by
  unfold setClockSegment
  exact segLoop_leds_out v _ _ _ _ _ _
    (by have := digitMap_le seg hseg; omega)

theorem C9_witness :
    (setClockSegment 2 4 initialStrip).leds 69 = initialStrip.leds 69 :=
  C9_frame 2 4 (by decide) (by decide) initialStrip 69 (by decide)

set_option maxRecDepth 4000 in
/-- C10: after the startup pixel test the trackers hold `oldHour = 99` and
`oldMinute = 99` while the final `colorFill` has blanked every pixel, so the
first `setClockTime` with a real time (hour ≤ 23, minute ≤ 59) takes the
full-redraw branch and renders all six digit positions. -/
theorem C10_boot_state :
    (pixelTest initialClock).oldHour = 99 ∧
    (pixelTest initialClock).oldMinute = 99 ∧
    (∀ i, i < NUM_LEDS → (pixelTest initialClock).strip.leds i = blackPixel) ∧
    (∀ h m s, h ≤ 23 → m ≤ 59 →
      (setClockTime h m s (pixelTest initialClock)).log =
        (pixelTest initialClock).log ++
          [(0, s % 10), (1, s / 10 % 10), (2, m % 10), (3, m / 10 % 10),
           (4, h % 10), (5, h / 10 % 10)]) := by
  obtain ⟨thour, tminute⟩ := pixelTest_trackers
  refine ⟨thour, tminute, ?_, ?_⟩
  · intro i hi
    obtain ⟨s9, hs9⟩ : ∃ s9, (pixelTest initialClock).strip = colorFill CRGB.Black s9 :=
      ⟨_, rfl⟩
    rw [hs9, colorFill_leds _ _ _ hi]
    decide
  · intro h m s hh hm
    exact setClockTime_log_full h m s _ (by rw [tminute]; omega) (by rw [thour]; omega)

theorem C10_witness :
    (pixelTest initialClock).oldHour = 99 ∧
    (pixelTest initialClock).strip.leds 0 = blackPixel ∧
    (setClockTime 12 34 56 (pixelTest initialClock)).log =
      (pixelTest initialClock).log ++
        [(0, 6), (1, 5), (2, 4), (3, 3), (4, 2), (5, 1)] := by
  obtain ⟨h1, h2, h3, h4⟩ := C10_boot_state
  refine ⟨h1, h3 0 (by decide), ?_⟩
  rw [h4 12 34 56 (by decide) (by decide)]

end ClockDriver
